import Mathlib

/-!
Verification development for the JobTradeSasa marketplace server.

The definitions below are a shallow embedding of the repository's server
code:

* the relational data model follows the Drizzle table declarations and the
  Zod insert schemas in `shared/schema.ts`;
* the storage operations follow `DatabaseStorage` in `server/storage.ts`
  (the database is modelled as in-memory lists of rows, UUID generation and
  clock reads are passed in as explicit arguments);
* the HTTP route handlers and the WebSocket chat relay follow
  `server/routes.ts` (the revision containing the role checks on
  `POST /api/jobs` and `POST /api/jobs/:id/accept`).

Strings stand in for UUIDs and for the enum-valued columns (`role`,
`job_status`, `urgency`), exactly as they are strings in the source; numeric
JS values are modelled as `Rat`; timestamps as `Nat`.
-/

namespace Sasa

/-- A row of the `users` table (password, photo and audit columns that no
claim reads are omitted). -/
structure User where
  id : String
  role : String
  name : String
  email : String
  phone : Option String := none
deriving DecidableEq

/-- A row of the `providers` table. `ratingAverage` is stored by the source
as a 2-decimal string via `toFixed(2)`; it is modelled here as the exact
rational value (no claim depends on the decimal formatting). -/
structure Provider where
  userId : String
  companyName : Option String := none
  serviceCategories : List Nat
  serviceAreaRadiusMeters : Nat := 10000
  ratingAverage : Option Rat := some 0
  completedJobsCount : Nat := 0
  isOnline : Bool := false
  latitude : Option Rat := none
  longitude : Option Rat := none
deriving DecidableEq

/-- A row of the `jobs` table. -/
structure Job where
  id : String
  requesterId : String
  providerId : Option String
  categoryId : Nat
  title : String
  description : String
  photos : List String
  latitude : String
  longitude : String
  address : Option String
  urgency : String
  preferredTime : Option Nat
  status : String
  priceAgreed : Option Rat
  pricePaid : Option Rat
  createdAt : Nat
  updatedAt : Nat
deriving DecidableEq

/-- A row of the `messages` table. -/
structure Message where
  id : String
  jobId : String
  senderId : String
  messageText : String
  attachments : Option (List String)
  voiceNoteUrl : Option String
  createdAt : Nat
deriving DecidableEq

/-- A row of the `ratings` table. The `rating` column is declared
`integer` in the schema, but the value that reaches the insert is whatever
JS number passed the Zod check, so it is modelled as `Rat`. -/
structure Rating where
  id : String
  jobId : String
  fromUserId : String
  toUserId : String
  rating : Rat
  comment : Option String
  createdAt : Nat
deriving DecidableEq

/-- The relational database state: one list of rows per table. -/
structure DB where
  users : List User
  providers : List Provider
  jobs : List Job
  messages : List Message
  ratings : List Rating
deriving DecidableEq

/-- The seven values of the `job_status` pg enum / `updateJobStatusSchema`
Zod enum. -/
def jobStatusEnum : List String :=
  ["open", "offered", "accepted", "enroute", "onsite", "completed", "cancelled"]

/-! ### Zod insert schemas (`shared/schema.ts`)

Each `insertXSchema` is modelled by a structure holding exactly the fields
the Zod object declares (so a caller cannot smuggle in any other column:
`z.object` strips unknown keys) together with a boolean validity check for
the constraints that are not already captured by the field types. The
`.uuid()` format checks on id-typed fields are not modelled; no claim
depends on the UUID syntax of an identifier. -/

/-- Model of `insertJobSchema`: `title`, `description`, `categoryId`, `latitude`,
`longitude`, `address?`, `urgency` (default `"normal"`), `preferredTime?`,
`photos?` — and, deliberately, neither `status` nor `providerId`. -/
structure InsertJob where
  title : String
  description : String
  categoryId : Nat
  latitude : String
  longitude : String
  address : Option String := none
  urgency : String := "normal"
  preferredTime : Option Nat := none
  photos : List String := []
deriving DecidableEq

/-- The value-level checks of `insertJobSchema`: `title` and `description`
must be nonempty (`min(1)`) and `urgency` must be in the two-value enum. -/
def insertJobSchemaCheck (j : InsertJob) : Bool :=
  decide (1 ≤ j.title.length) && decide (1 ≤ j.description.length) &&
    decide (j.urgency ∈ ["normal", "emergency"])

/-- Model of `insertMessageSchema`: `jobId`, `messageText`, `attachments?`,
`voiceNoteUrl?`. -/
structure InsertMessage where
  jobId : String
  messageText : String
  attachments : Option (List String) := none
  voiceNoteUrl : Option String := none
deriving DecidableEq

/-- The value-level check of `insertMessageSchema`:
`messageText: z.string().min(1)`. -/
def insertMessageSchemaCheck (m : InsertMessage) : Bool :=
  decide (1 ≤ m.messageText.length)

/-- Model of `insertRatingSchema`: `jobId`, `toUserId`, `rating`, `comment?`. -/
structure InsertRating where
  jobId : String
  toUserId : String
  rating : Rat
  comment : Option String := none
deriving DecidableEq

/-- The value-level check of `insertRatingSchema`:
`rating: z.number().min(1).max(5)` — a bound check only, with no `.int()`
integrality constraint. -/
def insertRatingSchemaCheck (r : InsertRating) : Bool :=
  decide (1 ≤ r.rating) && decide (r.rating ≤ 5)

/-- The check of `updateJobStatusSchema`:
`status: z.enum([...jobStatusEnum])`. -/
def updateJobStatusSchemaCheck (s : String) : Bool :=
  decide (s ∈ jobStatusEnum)

/-! ### Storage operations (`server/storage.ts`, class `DatabaseStorage`)

Row ids are primary keys, so a `where eq(table.id, x)` update is modelled
by rewriting every row whose id is `x`. Fresh UUIDs (`defaultRandom`) and
`new Date()` reads are explicit `newId` / `now` arguments. -/

/-- Model of `getJob`: `select ... from jobs where eq(jobs.id, id)` (the requester /
category / provider joins it also performs are not consumed by any claim,
so only the job row is returned). -/
def DatabaseStorage.getJob (db : DB) (id : String) : Option Job :=
  db.jobs.find? (fun j => j.id = id)

/-- Model of `createJob`: inserts a row built from the validated `InsertJob` payload
plus the authenticated `requesterId`; the `status` and `providerId` columns
take their table defaults (`'open'` and SQL `NULL`). -/
def DatabaseStorage.createJob (db : DB) (insertJob : InsertJob)
    (requesterId newId : String) (now : Nat) : DB × Job :=
  let job : Job :=
    { id := newId
      requesterId := requesterId
      providerId := none
      categoryId := insertJob.categoryId
      title := insertJob.title
      description := insertJob.description
      photos := insertJob.photos
      latitude := insertJob.latitude
      longitude := insertJob.longitude
      address := insertJob.address
      urgency := insertJob.urgency
      preferredTime := insertJob.preferredTime
      status := "open"
      priceAgreed := none
      pricePaid := none
      createdAt := now
      updatedAt := now }
  ({ db with jobs := db.jobs ++ [job] }, job)

/-- Model of `updateJob`: `update jobs set { ...data, updatedAt } where eq(jobs.id,
id) returning`. The only caller passes `{ status }` validated by
`updateJobStatusSchema`, so `data` is the new status value. -/
def DatabaseStorage.updateJob (db : DB) (id newStatus : String) (now : Nat) :
    DB × Option Job :=
  let jobs' := db.jobs.map (fun k =>
    if k.id = id then { k with status := newStatus, updatedAt := now } else k)
  match jobs'.find? (fun j => j.id = id) with
  | some j' => ({ db with jobs := jobs' }, some j')
  | none => (db, none)

/-- Model of `acceptJob`: `update jobs set { providerId, status: 'accepted',
updatedAt } where eq(jobs.id, jobId) returning`. The `where` clause tests
only the job id — it does not require `status = 'open'` or
`providerId IS NULL`. -/
def DatabaseStorage.acceptJob (db : DB) (jobId providerId : String)
    (now : Nat) : DB × Option Job :=
  let jobs' := db.jobs.map (fun k =>
    if k.id = jobId then
      { k with providerId := some providerId, status := "accepted",
               updatedAt := now }
    else k)
  match jobs'.find? (fun j => j.id = jobId) with
  | some j' => ({ db with jobs := jobs' }, some j')
  | none => (db, none)

/-- A `messages` row spread together with its left-joined sender row, as
produced by `getMessages`. -/
structure MessageWithSender extends Message where
  sender : Option User
deriving DecidableEq

/-- Model of `getMessages`: `select message, sender from messages leftJoin users
where eq(messages.jobId, jobId) orderBy asc(messages.createdAt)`. -/
def DatabaseStorage.getMessages (db : DB) (jobId : String) :
    List MessageWithSender :=
  (((db.messages.filter (fun m => m.jobId = jobId)).mergeSort
      (fun a b => a.createdAt ≤ b.createdAt)).map
    (fun m => { toMessage := m,
                sender := db.users.find? (fun u => u.id = m.senderId) }))

/-- Model of `createMessage`: inserts a row built from the validated payload plus
the sender identity supplied by the caller. -/
def DatabaseStorage.createMessage (db : DB) (insertMessage : InsertMessage)
    (senderId newId : String) (now : Nat) : DB × Message :=
  let msg : Message :=
    { id := newId
      jobId := insertMessage.jobId
      senderId := senderId
      messageText := insertMessage.messageText
      attachments := insertMessage.attachments
      voiceNoteUrl := insertMessage.voiceNoteUrl
      createdAt := now }
  ({ db with messages := db.messages ++ [msg] }, msg)

/-- Model of `createRating`: inserts the rating row, then recomputes the target
provider's average over all of that provider's rating rows (full scan and
arithmetic mean, exactly as the source does) and writes it back to the
`providers` table. -/
def DatabaseStorage.createRating (db : DB) (insertRating : InsertRating)
    (fromUserId newId : String) (now : Nat) : DB × Rating :=
  let rating : Rating :=
    { id := newId
      jobId := insertRating.jobId
      fromUserId := fromUserId
      toUserId := insertRating.toUserId
      rating := insertRating.rating
      comment := insertRating.comment
      createdAt := now }
  let db1 := { db with ratings := db.ratings ++ [rating] }
  let providerRatings :=
    db1.ratings.filter (fun r => r.toUserId = insertRating.toUserId)
  let avgRating :=
    (providerRatings.map (fun r => r.rating)).sum / (providerRatings.length : Rat)
  let db2 :=
    { db1 with providers := db1.providers.map (fun p =>
        if p.userId = insertRating.toUserId then
          { p with ratingAverage := some avgRating } else p) }
  (db2, rating)

/-- The column projection `searchProviders` selects for each provider row,
spread together with its left-joined user row. -/
structure ProviderSearchResult where
  provider : Provider
  user : Option User
deriving DecidableEq

/-- The query parameters `GET /api/providers` parses and passes to
`searchProviders`. -/
structure SearchParams where
  categoryId : Option Nat := none
  latitude : Option Rat := none
  longitude : Option Rat := none
  radius : Option Nat := none
deriving DecidableEq

/-- Model of `searchProviders`: `select ... from providers leftJoin users where
eq(providers.isOnline, true)`. The `params` argument (category, latitude,
longitude, radius) appears nowhere in the query. -/
def DatabaseStorage.searchProviders (db : DB) (_params : SearchParams) :
    List ProviderSearchResult :=
  (db.providers.filter (fun p => p.isOnline)).map
    (fun p => { provider := p,
                user := db.users.find? (fun u => u.id = p.userId) })

/-! ### HTTP route handlers (`server/routes.ts`)

Each handler is a function of the database, the authenticated user
(decoded by `authMiddleware` from the bearer token: its `id` and `role`)
and the request data, returning the new database together with either an
`ok` body or an HTTP error `(statusCode, message)`. -/

/-- The `{ id, role }` view of the authenticated user that
`authMiddleware` attaches to the request. -/
structure AuthUser where
  id : String
  role : String
deriving DecidableEq

/-- The outcome of a route handler: a success body, or an error response
`(HTTP status, message)`. -/
inductive ApiResult (α : Type) where
  | ok (body : α)
  | err (status : Nat) (message : String)
deriving DecidableEq

/-- Model of `POST /api/jobs`: rejects any non-`requester` role with 403 before
touching storage, then validates the body with `insertJobSchema` (400 on
failure) and inserts via `createJob`. -/
def postJobRoute (db : DB) (user : AuthUser) (body : InsertJob)
    (newId : String) (now : Nat) : DB × ApiResult Job :=
  if user.role ≠ "requester" then
    (db, .err 403 "Only requesters can post jobs")
  else if insertJobSchemaCheck body then
    let (db', job) := DatabaseStorage.createJob db body user.id newId now
    (db', .ok job)
  else
    (db, .err 400 "Validation failed")

/-- Model of `PATCH /api/jobs/:id`: validates the body with `updateJobStatusSchema`
(400 on failure) and calls `updateJob`; it performs no check on the
caller's role, on the caller's relationship to the job, or on the job's
current status (the source carries only a comment reading `Optional: Add
logic to check if the user is authorized to change the status`). -/
def patchJobRoute (db : DB) (_user : AuthUser) (jobId bodyStatus : String)
    (now : Nat) : DB × ApiResult Job :=
  if updateJobStatusSchemaCheck bodyStatus then
    match DatabaseStorage.updateJob db jobId bodyStatus now with
    | (db', some job) => (db', .ok job)
    | (db', none) => (db', .err 404 "Job not found")
  else
    (db, .err 400 "Validation failed")

/-- Model of `POST /api/jobs/:id/accept`: rejects any non-`provider` role with 403
before touching storage, then calls `acceptJob` and maps an `undefined`
result to a 404 whose message reads `Job not found or already accepted`. -/
def acceptJobRoute (db : DB) (user : AuthUser) (jobId : String)
    (now : Nat) : DB × ApiResult Job :=
  if user.role ≠ "provider" then
    (db, .err 403 "Only providers can accept jobs")
  else
    match DatabaseStorage.acceptJob db jobId user.id now with
    | (db', some job) => (db', .ok job)
    | (db', none) => (db', .err 404 "Job not found or already accepted")

/-- Model of `GET /api/providers`: parses the query parameters and forwards them to
`searchProviders`; no role or ownership restriction. -/
def getProvidersRoute (db : DB) (_user : AuthUser) (params : SearchParams) :
    ApiResult (List ProviderSearchResult) :=
  .ok (DatabaseStorage.searchProviders db params)

/-- Model of `GET /api/messages/:jobId`: returns `getMessages(jobId)` for any
authenticated caller; there is no check that the caller participates in
the job, nor even that the job exists. -/
def getMessagesRoute (db : DB) (_user : AuthUser) (jobId : String) :
    ApiResult (List MessageWithSender) :=
  .ok (DatabaseStorage.getMessages db jobId)

/-- Model of `POST /api/messages`: validates the body with `insertMessageSchema`
(400 on failure) and inserts via `createMessage`, attributing the sender
from the authenticated session; there is no check that the caller
participates in the body's job. -/
def postMessageRoute (db : DB) (user : AuthUser) (body : InsertMessage)
    (newId : String) (now : Nat) : DB × ApiResult Message :=
  if insertMessageSchemaCheck body then
    let (db', msg) := DatabaseStorage.createMessage db body user.id newId now
    (db', .ok msg)
  else
    (db, .err 400 "Validation failed")

/-- Model of `POST /api/ratings`: validates the body with `insertRatingSchema` (400
on failure) and inserts via `createRating`, attributing `fromUserId` from
the authenticated session. -/
def postRatingRoute (db : DB) (user : AuthUser) (body : InsertRating)
    (newId : String) (now : Nat) : DB × ApiResult Rating :=
  if insertRatingSchemaCheck body then
    let (db', rating) := DatabaseStorage.createRating db body user.id newId now
    (db', .ok rating)
  else
    (db, .err 400 "Validation failed")

/-! ### WebSocket chat relay (`server/routes.ts`, `wss.on('connection')`)

The process-wide `clients` map from user id to live socket is modelled as
an association list with `Map.get` / `Map.set` / `Map.delete` semantics;
sockets are named by `Nat` connection ids, and each socket's
`readyState === OPEN` test is a supplied predicate. -/

/-- Model of `clients.get(k)`. -/
def clientsGet (m : List (String × Nat)) (k : String) : Option Nat :=
  (m.find? (fun p => p.1 = k)).map (fun p => p.2)

/-- Model of `clients.set(k, v)`: afterwards `k` maps to `v` and every other key is
unchanged (modelled extensionally; nothing in the source iterates the map,
so JS `Map` insertion order is unobservable). -/
def clientsSet (m : List (String × Nat)) (k : String) (v : Nat) :
    List (String × Nat) :=
  (m.filter (fun p => p.1 ≠ k)) ++ [(k, v)]

/-- Model of `clients.delete(k)`. -/
def clientsDelete (m : List (String × Nat)) (k : String) :
    List (String × Nat) :=
  m.filter (fun p => p.1 ≠ k)

/-- The forwarding decision the relay takes after persisting: look the job
up, determine the counterpart (`requesterId` if the sender is the
provider, `providerId` if the sender is the requester, nobody otherwise),
and forward only when the counterpart has a registry entry whose socket's
`readyState` is `OPEN`; in every other case (`if (!job) return;`, no
counterpart, no entry, stale socket) nothing is sent. -/
def wsForwardDecision (db' : DB) (clients : List (String × Nat))
    (readyStateOpen : Nat → Bool) (userId jobId : String) (msg : Message) :
    Option (Nat × Message) :=
  match DatabaseStorage.getJob db' jobId with
  | none => none
  | some job =>
    let otherUserId : Option String :=
      if job.requesterId = userId then job.providerId
      else if job.providerId = some userId then some job.requesterId
      else none
    match otherUserId with
    | none => none
    | some other =>
      match clientsGet clients other with
      | none => none
      | some ws => if readyStateOpen ws then some (ws, msg) else none

/-- What the `data.type === 'message'` branch of the relay's frame handler
does to the database, and the forward it decides on. Follows the revision
that validates the payload with `insertMessageSchema` before persisting;
an invalid frame raises a `ZodError` that is caught, logged and dropped
without closing the connection. The job lookup and the whole forwarding
decision (`wsForwardDecision`) happen strictly after `createMessage` has
run against the store. -/
def wsMessageHandler (db : DB) (clients : List (String × Nat))
    (readyStateOpen : Nat → Bool) (userId : String) (payload : InsertMessage)
    (newId : String) (now : Nat) : DB × Option (Nat × Message) :=
  if insertMessageSchemaCheck payload then
    let (db', msg) := DatabaseStorage.createMessage db payload userId newId now
    (db', wsForwardDecision db' clients readyStateOpen userId payload.jobId msg)
  else
    (db, none)

/-- The relay's per-process connection state: each connection's current
`userId` closure variable, whether it has closed, and the `clients`
registry. -/
structure RegistryState where
  connUser : Nat → Option String
  connClosed : Nat → Bool
  clients : List (String × Nat)

/-- The two registry-relevant connection events: an
`{type: 'auth', userId}` frame, and the socket's `close` event. -/
inductive RegEvent where
  | auth (c : Nat) (uid : String)
  | close (c : Nat)

/-- One registry transition. An `auth` frame sets the connection's
`userId` variable and writes `clients.set(userId, ws)`; `close` runs
`clients.delete(userId)` for the connection's current `userId` (if any)
and marks the socket closed. A closed socket emits no further events, so
events on a closed connection are no-ops. -/
def regStep (s : RegistryState) : RegEvent → RegistryState
  | .auth c uid =>
    if s.connClosed c then s
    else
      { s with connUser := Function.update s.connUser c (some uid)
               clients := clientsSet s.clients uid c }
  | .close c =>
    if s.connClosed c then s
    else
      { s with connClosed := Function.update s.connClosed c true
               clients := match s.connUser c with
                          | some u => clientsDelete s.clients u
                          | none => s.clients }

/-- Running a sequence of registry events. -/
def regRun (s : RegistryState) (es : List RegEvent) : RegistryState :=
  es.foldl regStep s

/-- The server's initial registry state: `new Map()`, no connection
authenticated, none closed. -/
def regInit : RegistryState :=
  { connUser := fun _ => none, connClosed := fun _ => false, clients := [] }

/-- The registry soundness property: every entry of the `clients` map
points to a socket that is still open and whose current authenticated user
id is that entry's key. -/
def RegInv (s : RegistryState) : Prop :=
  ∀ u c, clientsGet s.clients u = some c →
    s.connClosed c = false ∧ s.connUser c = some u

/-- A trace in which no connection authenticates under two different user
ids. -/
def SingleAuth (es : List RegEvent) : Prop :=
  ∀ c u₁ u₂, RegEvent.auth c u₁ ∈ es → RegEvent.auth c u₂ ∈ es → u₁ = u₂

/-! ### Job-lifecycle operation sequences

Sequences of status-changing API calls against one fixed job, used to
state lifecycle invariants. -/

/-- One status-mutating API call aimed at a fixed job: a
`PATCH /api/jobs/:id` with a new status, or a `POST /api/jobs/:id/accept`. -/
inductive JobOp where
  | patch (user : AuthUser) (newStatus : String) (now : Nat)
  | accept (user : AuthUser) (now : Nat)

/-- The database after one `JobOp` against job `jobId`. -/
def applyJobOp (db : DB) (jobId : String) : JobOp → DB
  | .patch u s now => (patchJobRoute db u jobId s now).1
  | .accept u now => (acceptJobRoute db u jobId now).1

/-- The database after a sequence of `JobOp`s against job `jobId`. -/
def runJobOps (db : DB) (jobId : String) (ops : List JobOp) : DB :=
  ops.foldl (fun d op => applyJobOp d jobId op) db

/-! ### Helper lemmas about the modelled map and table operations -/

theorem find?_filter_key_self (m : List (String × Nat)) (k : String) :
    (m.filter (fun p => p.1 ≠ k)).find? (fun p => p.1 = k) = none := by
  induction m with
  | nil => rfl
  | cons hd tl ih =>
    by_cases h : hd.1 = k
    · rw [List.filter_cons_of_neg (by simp [h])]
      exact ih
    · rw [List.filter_cons_of_pos (by simp [h]),
        List.find?_cons_of_neg _ (by simp [h])]
      exact ih

theorem find?_filter_key_ne (m : List (String × Nat)) (k k' : String)
    (hne : k' ≠ k) :
    (m.filter (fun p => p.1 ≠ k)).find? (fun p => p.1 = k')
      = m.find? (fun p => p.1 = k') := by
  induction m with
  | nil => rfl
  | cons hd tl ih =>
    by_cases h : hd.1 = k
    · have h' : ¬ hd.1 = k' := by
        rw [h]; exact fun hc => hne hc.symm
      rw [List.filter_cons_of_neg (by simp [h]), ih,
        List.find?_cons_of_neg _ (by simp [h'])]
    · by_cases h2 : hd.1 = k'
      · rw [List.filter_cons_of_pos (by simp [h]),
          List.find?_cons_of_pos _ (by simp [h2]),
          List.find?_cons_of_pos _ (by simp [h2])]
      · rw [List.filter_cons_of_pos (by simp [h]),
          List.find?_cons_of_neg _ (by simp [h2]),
          List.find?_cons_of_neg _ (by simp [h2]), ih]

theorem clientsGet_set_self (m : List (String × Nat)) (k : String) (v : Nat) :
    clientsGet (clientsSet m k v) k = some v := by
  unfold clientsGet clientsSet
  rw [List.find?_append, find?_filter_key_self]
  simp [List.find?]

theorem clientsGet_set_ne (m : List (String × Nat)) (k k' : String) (v : Nat)
    (hne : k' ≠ k) : clientsGet (clientsSet m k v) k' = clientsGet m k' := by
  unfold clientsGet clientsSet
  rw [List.find?_append, find?_filter_key_ne m k k' hne]
  have hne' : ¬ (k = k') := fun hc => hne hc.symm
  have : ([(k, v)].find? (fun p => p.1 = k')) = none := by
    simp [List.find?, hne']
  rw [this, Option.or_none]

theorem clientsGet_delete_self (m : List (String × Nat)) (k : String) :
    clientsGet (clientsDelete m k) k = none := by
  unfold clientsGet clientsDelete
  rw [find?_filter_key_self]
  rfl

theorem clientsGet_delete_ne (m : List (String × Nat)) (k k' : String)
    (hne : k' ≠ k) : clientsGet (clientsDelete m k) k' = clientsGet m k' := by
  unfold clientsGet clientsDelete
  rw [find?_filter_key_ne m k k' hne]

/-- Rewriting the rows whose id is `uid` with an id-preserving function
commutes with `find?` by id. -/
theorem find?_jobs_update (l : List Job) (uid : String) (g : Job → Job)
    (hg : ∀ j, (g j).id = j.id) (tid : String) :
    ((l.map (fun k => if k.id = uid then g k else k)).find?
        (fun j => j.id = tid))
      = (l.find? (fun j => j.id = tid)).map
          (fun k => if k.id = uid then g k else k) := by
  induction l with
  | nil => rfl
  | cons hd tl ih =>
    rw [List.map_cons]
    by_cases hhd : hd.id = tid
    · have hid : (if hd.id = uid then g hd else hd).id = tid := by
        by_cases h : hd.id = uid
        · rw [if_pos h, hg]; exact hhd
        · rw [if_neg h]; exact hhd
      rw [List.find?_cons_of_pos _ (by simp [hid]),
        List.find?_cons_of_pos _ (by simp [hhd])]
      rfl
    · have hid : ¬ (if hd.id = uid then g hd else hd).id = tid := by
        by_cases h : hd.id = uid
        · rw [if_pos h, hg]; exact hhd
        · rw [if_neg h]; exact hhd
      rw [List.find?_cons_of_neg _ (by simp [hid]),
        List.find?_cons_of_neg _ (by simp [hhd])]
      exact ih

/-- If a row with the sought id exists, the rewritten table's first match
is the rewrite of the original first match. -/
theorem find?_update_of_found (l : List Job) (uid : String) (g : Job → Job)
    (hg : ∀ j, (g j).id = j.id) (j : Job)
    (hj : l.find? (fun k => k.id = uid) = some j) :
    (l.map (fun k => if k.id = uid then g k else k)).find?
        (fun k => k.id = uid) = some (g j) := by
  rw [find?_jobs_update l uid g hg uid, hj]
  have hjid : j.id = uid := by simpa using List.find?_some hj
  simp [hjid]

/-- If no row has the sought id, the rewrite changes nothing. -/
theorem map_update_of_missing (l : List Job) (uid : String) (g : Job → Job)
    (hj : l.find? (fun k => k.id = uid) = none) :
    l.map (fun k => if k.id = uid then g k else k) = l := by
  have hnone := List.find?_eq_none.mp hj
  have : ∀ a ∈ l, (fun k => if k.id = uid then g k else k) a = a := by
    intro a ha
    have := hnone a ha
    simp at this
    simp [this]
  rw [List.map_congr_left this]
  simp

/-- Route `PATCH /api/jobs/:id` on an existing job with an enum-valid status:
the response is the updated row and the stored row now carries the new
status (and nothing else of it changed). -/
theorem patchJobRoute_found (db : DB) (u : AuthUser) (jid s : String)
    (now : Nat) (j : Job) (hs : updateJobStatusSchemaCheck s = true)
    (hj : DatabaseStorage.getJob db jid = some j) :
    (patchJobRoute db u jid s now).2
        = .ok { j with status := s, updatedAt := now } ∧
    DatabaseStorage.getJob (patchJobRoute db u jid s now).1 jid
        = some { j with status := s, updatedAt := now } := by
  have hfind := find?_update_of_found db.jobs jid
    (fun k => { k with status := s, updatedAt := now }) (fun _ => rfl) j hj
  have hfind2 := find?_jobs_update db.jobs jid
    (fun k => { k with status := s, updatedAt := now }) (fun _ => rfl) jid
  constructor
  · simp [patchJobRoute, hs, DatabaseStorage.updateJob, hfind]
  · simp [patchJobRoute, hs, DatabaseStorage.updateJob, hfind,
      DatabaseStorage.getJob]

/-- Route `PATCH /api/jobs/:id` on a missing job id: 404 and no change. -/
theorem patchJobRoute_missing (db : DB) (u : AuthUser) (jid s : String)
    (now : Nat) (hs : updateJobStatusSchemaCheck s = true)
    (hj : DatabaseStorage.getJob db jid = none) :
    patchJobRoute db u jid s now = (db, .err 404 "Job not found") := by
  have hfind : db.jobs.find? (fun j => j.id = jid) = none := hj
  have hmap := map_update_of_missing db.jobs jid
    (fun k => { k with status := s, updatedAt := now }) hfind
  simp only [patchJobRoute, DatabaseStorage.updateJob, hs, if_true, hmap,
    hfind]

/-- Route `POST /api/jobs/:id/accept` by a provider on an existing job: the
response is the updated row, now assigned to the caller with status
`accepted`. -/
theorem acceptJobRoute_provider_found (db : DB) (u : AuthUser)
    (jid : String) (now : Nat) (j : Job) (hrole : u.role = "provider")
    (hj : DatabaseStorage.getJob db jid = some j) :
    (acceptJobRoute db u jid now).2
        = .ok { j with providerId := some u.id, status := "accepted",
                       updatedAt := now } ∧
    DatabaseStorage.getJob (acceptJobRoute db u jid now).1 jid
        = some { j with providerId := some u.id, status := "accepted",
                        updatedAt := now } := by
  have hfind := find?_update_of_found db.jobs jid
    (fun k => { k with providerId := some u.id, status := "accepted",
                       updatedAt := now }) (fun _ => rfl) j hj
  constructor
  · simp [acceptJobRoute, hrole, DatabaseStorage.acceptJob, hfind]
  · simp [acceptJobRoute, hrole, DatabaseStorage.acceptJob, hfind,
      DatabaseStorage.getJob]

/-- Route `POST /api/jobs/:id/accept` by a non-provider: 403 and no change. -/
theorem acceptJobRoute_notProvider (db : DB) (u : AuthUser) (jid : String)
    (now : Nat) (hrole : u.role ≠ "provider") :
    acceptJobRoute db u jid now
      = (db, .err 403 "Only providers can accept jobs") := by
  simp [acceptJobRoute, hrole]

/-- Route `POST /api/jobs/:id/accept` on a missing job id: 404 and no change. -/
theorem acceptJobRoute_missing (db : DB) (u : AuthUser) (jid : String)
    (now : Nat) (hrole : u.role = "provider")
    (hj : DatabaseStorage.getJob db jid = none) :
    acceptJobRoute db u jid now
      = (db, .err 404 "Job not found or already accepted") := by
  have hfind : db.jobs.find? (fun j => j.id = jid) = none := hj
  have hmap := map_update_of_missing db.jobs jid
    (fun k => { k with providerId := some u.id, status := "accepted",
                       updatedAt := now }) hfind
  simp only [acceptJobRoute, DatabaseStorage.acceptJob, hrole, ne_eq,
    not_true_eq_false, if_false, hmap, hfind]

/-- Route `PATCH /api/jobs/:id` with a status outside the enum: 400 and no
change. -/
theorem patchJobRoute_invalid (db : DB) (u : AuthUser) (jid s : String)
    (now : Nat) (hs : updateJobStatusSchemaCheck s = false) :
    patchJobRoute db u jid s now = (db, .err 400 "Validation failed") := by
  simp [patchJobRoute, hs]

/-! ## Claim C1 — atomic check-and-set on accept

The claim says `acceptJob` fails when the job is not `open` or already has
a provider. The `where` clause of `acceptJob` tests only the job id, so a
second provider's accept on an already-accepted job succeeds and silently
reassigns the job — contradicting both the claim and the route's own 404
message `Job not found or already accepted`, which promises that an
already-accepted job produces a failure. -/

/-- C1 failing input: a job already accepted by provider `p1`. -/
def jobC1 : Job :=
  { id := "j1", requesterId := "r1", providerId := some "p1",
    categoryId := 1, title := "Fix sink", description := "kitchen leak",
    photos := [], latitude := "0", longitude := "0", address := none,
    urgency := "normal", preferredTime := none, status := "accepted",
    priceAgreed := none, pricePaid := none, createdAt := 0, updatedAt := 1 }

/-- C1 failing input: database holding `jobC1` and three users. -/
def dbC1 : DB :=
  { users := [{ id := "r1", role := "requester", name := "R", email := "r@x" },
              { id := "p1", role := "provider", name := "P1", email := "p1@x" },
              { id := "p2", role := "provider", name := "P2", email := "p2@x" }],
    providers := [], jobs := [jobC1], messages := [], ratings := [] }

/-- Claim C1. The accept operation is claimed to fail on a job that is not
`open` or already has a provider assigned. Evaluating the code at the
failing input: job `j1` is `accepted` and assigned to `p1`, yet a second
provider `p2`'s accept call returns 200 with the job reassigned to `p2`,
and the stored row now carries `providerId = p2`. -/
theorem C1_accept_reassigns_accepted_job :
    (acceptJobRoute dbC1 { id := "p2", role := "provider" } "j1" 2).2
        = .ok { jobC1 with providerId := some "p2", updatedAt := 2 } ∧
    DatabaseStorage.getJob
        (acceptJobRoute dbC1 { id := "p2", role := "provider" } "j1" 2).1 "j1"
        = some { jobC1 with providerId := some "p2", updatedAt := 2 } := by
  exact ⟨rfl, rfl⟩

/-! ## Claim C2 — status monotonicity -/

/-- C2 counterexample input: a completed job assigned to provider `p1`. -/
def jobC2 : Job :=
  { id := "j1", requesterId := "r1", providerId := some "p1",
    categoryId := 1, title := "Fix sink", description := "kitchen leak",
    photos := [], latitude := "0", longitude := "0", address := none,
    urgency := "normal", preferredTime := none, status := "completed",
    priceAgreed := none, pricePaid := none, createdAt := 0, updatedAt := 4 }

/-- C2 counterexample input: database holding `jobC2`. -/
def dbC2 : DB :=
  { users := [{ id := "r1", role := "requester", name := "R", email := "r@x" },
              { id := "p1", role := "provider", name := "P1", email := "p1@x" }],
    providers := [], jobs := [jobC2], messages := [], ratings := [] }

/-- Claim C2, counterexample. The claim says only the assigned provider can
change a job's status, progression is strictly forward, and terminal
states are immutable. At a concrete input the code violates all three: the
requester `r1` (not the assigned provider `p1`) patches the `completed`
job `j1` back to `open`, the route answers 200 and the stored status
regresses out of the terminal state. -/
theorem C2_counterexample :
    (patchJobRoute dbC2 { id := "r1", role := "requester" } "j1" "open" 5).2
        = .ok { jobC2 with status := "open", updatedAt := 5 } ∧
    DatabaseStorage.getJob
        (patchJobRoute dbC2 { id := "r1", role := "requester" } "j1" "open" 5).1
        "j1"
        = some { jobC2 with status := "open", updatedAt := 5 } := by
  exact ⟨rfl, rfl⟩

/-- Claim C2, amended. The status-update operation validates only that the
new status is one of the seven enum values; it performs no authorization,
sequencing or terminal-state check: any authenticated caller — whatever
their id or role — can move any existing job to any enum status, and the
stored row takes exactly that status. -/
theorem C2_amended_patch_unrestricted (db : DB) (u : AuthUser)
    (jid s : String) (now : Nat) (j : Job) (hs : s ∈ jobStatusEnum)
    (hj : DatabaseStorage.getJob db jid = some j) :
    (patchJobRoute db u jid s now).2
        = .ok { j with status := s, updatedAt := now } ∧
    DatabaseStorage.getJob (patchJobRoute db u jid s now).1 jid
        = some { j with status := s, updatedAt := now } := by
  have hs' : updateJobStatusSchemaCheck s = true := by
    simp [updateJobStatusSchemaCheck, hs]
  exact patchJobRoute_found db u jid s now j hs' hj

/-- Witness for C2 (amended): an `admin` caller unrelated to `jobC2` moves
the completed job to `enroute`. -/
theorem C2_amended_patch_unrestricted_witness :
    (patchJobRoute dbC2 { id := "u9", role := "admin" } "j1" "enroute" 7).2
        = .ok { jobC2 with status := "enroute", updatedAt := 7 } :=
  (C2_amended_patch_unrestricted dbC2 { id := "u9", role := "admin" }
    "j1" "enroute" 7 jobC2 (by decide) rfl).1

/-! ## Claim C3 — role gating on accept-job and create-job -/

/-- Claim C3. A `requester`-role caller of the accept route receives the 403
permission error with the database unchanged, and a `provider`-role caller
of the create route receives its 403 permission error with the database
unchanged (no job created). -/
theorem C3_role_gating (db : DB) (u : AuthUser) (jid : String)
    (body : InsertJob) (newId : String) (now : Nat) :
    (u.role = "requester" →
      acceptJobRoute db u jid now
        = (db, .err 403 "Only providers can accept jobs")) ∧
    (u.role = "provider" →
      postJobRoute db u body newId now
        = (db, .err 403 "Only requesters can post jobs")) := by
  constructor
  · intro h
    exact acceptJobRoute_notProvider db u jid now (by rw [h]; decide)
  · intro h
    have hne : u.role ≠ "requester" := by rw [h]; decide
    unfold postJobRoute
    rw [if_pos hne]

/-- C3 witness input: an open job and the two wrongly-roled callers. -/
def dbC3 : DB :=
  { users := [{ id := "r1", role := "requester", name := "R", email := "r@x" },
              { id := "p1", role := "provider", name := "P1", email := "p1@x" }],
    providers := [],
    jobs := [{ id := "j1", requesterId := "r1", providerId := none,
               categoryId := 1, title := "Paint wall", description := "2 coats",
               photos := [], latitude := "0", longitude := "0", address := none,
               urgency := "normal", preferredTime := none, status := "open",
               priceAgreed := none, pricePaid := none, createdAt := 0,
               updatedAt := 0 }],
    messages := [], ratings := [] }

/-- C3 witness input: a well-formed job payload. -/
def bodyC3 : InsertJob :=
  { title := "Mount shelf", description := "two brackets", categoryId := 3,
    latitude := "1", longitude := "1" }

/-- Witness for C3: the requester `r1` is refused on accept and the
provider `p1` is refused on create, both leaving `dbC3` unchanged. -/
theorem C3_role_gating_witness :
    acceptJobRoute dbC3 { id := "r1", role := "requester" } "j1" 3
        = (dbC3, .err 403 "Only providers can accept jobs") ∧
    postJobRoute dbC3 { id := "p1", role := "provider" } bodyC3 "j2" 3
        = (dbC3, .err 403 "Only requesters can post jobs") :=
  ⟨(C3_role_gating dbC3 { id := "r1", role := "requester" } "j1" bodyC3
      "j2" 3).1 rfl,
   (C3_role_gating dbC3 { id := "p1", role := "provider" } "j1" bodyC3
      "j2" 3).2 rfl⟩

/-! ## Claim C4 — rating bound -/

/-- C4 counterexample input: database with one provider `p1`. -/
def dbC4 : DB :=
  { users := [{ id := "r1", role := "requester", name := "R", email := "r@x" },
              { id := "p1", role := "provider", name := "P1", email := "p1@x" }],
    providers := [{ userId := "p1", serviceCategories := [1],
                    isOnline := true }],
    jobs := [], messages := [], ratings := [] }

/-- C4 counterexample input: a submitted rating of 4.5 (the rational built
by its explicit numerator/denominator so that evaluation is definitional). -/
def ratingBodyC4 : InsertRating :=
  { jobId := "j1", toUserId := "p1", rating := ⟨9, 2, by decide, by decide⟩ }

/-- Claim C4, counterexample. The claim says every submitted rating score
is an integer. `insertRatingSchema` checks only `min(1).max(5)` with no
`.int()`, so the non-integer score 4.5 passes validation, the route
answers 200 and a rating row holding 4.5 is written. -/
theorem C4_counterexample :
    ratingBodyC4.rating = 9 / 2 ∧
    ratingBodyC4.rating.den ≠ 1 ∧
    insertRatingSchemaCheck ratingBodyC4 = true ∧
    (postRatingRoute dbC4 { id := "r1", role := "requester" } ratingBodyC4
        "rt1" 10).2
      = .ok { id := "rt1", jobId := "j1", fromUserId := "r1",
              toUserId := "p1", rating := ratingBodyC4.rating, comment := none,
              createdAt := 10 } ∧
    (postRatingRoute dbC4 { id := "r1", role := "requester" } ratingBodyC4
        "rt1" 10).1.ratings.length = 1 := by
  refine ⟨?_, by decide, by decide, rfl, rfl⟩
  apply Rat.ext <;> norm_num [ratingBodyC4]

/-- Claim C4, amended. The schema validates the score as a *number* with
1 ≤ rating ≤ 5 (integrality is not checked); any out-of-range value is
rejected with a 400 validation error, the database is returned unchanged —
so no rating row is written and every provider row, including the rating
average, is untouched. -/
theorem C4_amended_rating_bound (db : DB) (u : AuthUser)
    (body : InsertRating) (newId : String) (now : Nat)
    (hout : ¬ (1 ≤ body.rating ∧ body.rating ≤ 5)) :
    postRatingRoute db u body newId now = (db, .err 400 "Validation failed") ∧
    (postRatingRoute db u body newId now).1.ratings = db.ratings ∧
    (postRatingRoute db u body newId now).1.providers = db.providers := by
  have hc : insertRatingSchemaCheck body = false := by
    unfold insertRatingSchemaCheck
    by_cases h1 : (1 : Rat) ≤ body.rating
    · by_cases h2 : body.rating ≤ 5
      · exact absurd ⟨h1, h2⟩ hout
      · simp [h2]
    · simp [h1]
  have hfull : postRatingRoute db u body newId now
      = (db, .err 400 "Validation failed") := by
    simp [postRatingRoute, hc]
  exact ⟨hfull, by rw [hfull], by rw [hfull]⟩

/-- Witness for C4 (amended): a rating of 6 is rejected and `dbC4` is
unchanged. -/
theorem C4_amended_rating_bound_witness :
    postRatingRoute dbC4 { id := "r1", role := "requester" }
        { jobId := "j1", toUserId := "p1", rating := 6 } "rt2" 11
      = (dbC4, .err 400 "Validation failed") :=
  (C4_amended_rating_bound dbC4 { id := "r1", role := "requester" }
    { jobId := "j1", toUserId := "p1", rating := 6 } "rt2" 11
    (by decide)).1

/-! ## Claim C5 — message history ordering and immediate visibility -/

/-- Every entry of a `getMessages` result, membership-style: the list is
the job's rows sorted by `createdAt`, each joined with its sender row. -/
theorem mem_getMessages_of_row (db : DB) (jobId : String) (m : Message)
    (hm : m ∈ db.messages) (hjob : m.jobId = jobId) :
    { toMessage := m,
      sender := db.users.find? (fun us => us.id = m.senderId) :
        MessageWithSender } ∈ DatabaseStorage.getMessages db jobId := by
  unfold DatabaseStorage.getMessages
  apply List.mem_map.mpr
  refine ⟨m, ?_, rfl⟩
  rw [List.mem_mergeSort]
  exact List.mem_filter.mpr ⟨hm, by simp [hjob]⟩

/-- Claim C5. Fetching a job's message history returns the job's messages in
non-decreasing `createdAt` order (first conjunct), every stored message of
the job appears in the result annotated with its sender's user row (second
conjunct), and a message is visible in the history read from the state a
successful `POST /api/messages` returns (third conjunct). -/
theorem C5_message_history (db : DB) (jobId : String) (u : AuthUser)
    (body : InsertMessage) (newId : String) (now : Nat) :
    (DatabaseStorage.getMessages db jobId).Pairwise
        (fun a b => a.createdAt ≤ b.createdAt) ∧
    (∀ m ∈ db.messages, m.jobId = jobId →
      ∃ e ∈ DatabaseStorage.getMessages db jobId,
        e.toMessage = m ∧
        e.sender = db.users.find? (fun us => us.id = m.senderId)) ∧
    (insertMessageSchemaCheck body = true →
      ∃ msg, (postMessageRoute db u body newId now).2 = .ok msg ∧
        ∃ e ∈ DatabaseStorage.getMessages
            (postMessageRoute db u body newId now).1 body.jobId,
          e.toMessage = msg) := by
  refine ⟨?_, ?_, ?_⟩
  · unfold DatabaseStorage.getMessages
    rw [List.pairwise_map]
    have hs : (List.mergeSort (db.messages.filter (fun m => m.jobId = jobId))
        (fun a b => a.createdAt ≤ b.createdAt)).Pairwise
        (fun a b : Message => (decide (a.createdAt ≤ b.createdAt)) = true) := by
      apply List.sorted_mergeSort
      · intro a b c hab hbc
        simp only [decide_eq_true_eq] at hab hbc ⊢
        omega
      · intro a b
        simp only [Bool.or_eq_true, decide_eq_true_eq]
        omega
    exact hs.imp (fun h => by simpa using h)
  · intro m hm hjob
    exact ⟨_, mem_getMessages_of_row db jobId m hm hjob, rfl, rfl⟩
  · intro hv
    refine ⟨{ id := newId, jobId := body.jobId, senderId := u.id,
              messageText := body.messageText,
              attachments := body.attachments,
              voiceNoteUrl := body.voiceNoteUrl, createdAt := now }, ?_, ?_⟩
    · simp [postMessageRoute, hv, DatabaseStorage.createMessage]
    · have hdb : (postMessageRoute db u body newId now).1
          = { db with messages := db.messages ++
              [{ id := newId, jobId := body.jobId, senderId := u.id,
                 messageText := body.messageText,
                 attachments := body.attachments,
                 voiceNoteUrl := body.voiceNoteUrl, createdAt := now }] } := by
        simp [postMessageRoute, hv, DatabaseStorage.createMessage]
      rw [hdb]
      refine ⟨_, mem_getMessages_of_row _ body.jobId _ ?_ rfl, rfl⟩
      simp

/-- C5 witness inputs: a job with two stored messages (deliberately listed
out of timestamp order) and a fresh message to send. -/
def dbC5 : DB :=
  { users := [{ id := "r1", role := "requester", name := "R", email := "r@x" },
              { id := "p1", role := "provider", name := "P1", email := "p1@x" }],
    providers := [],
    jobs := [{ id := "j1", requesterId := "r1", providerId := some "p1",
               categoryId := 1, title := "Fix sink", description := "leak",
               photos := [], latitude := "0", longitude := "0", address := none,
               urgency := "normal", preferredTime := none, status := "accepted",
               priceAgreed := none, pricePaid := none, createdAt := 0,
               updatedAt := 1 }],
    messages := [{ id := "m2", jobId := "j1", senderId := "p1",
                   messageText := "On my way", attachments := none,
                   voiceNoteUrl := none, createdAt := 5 },
                 { id := "m1", jobId := "j1", senderId := "r1",
                   messageText := "Hello", attachments := none,
                   voiceNoteUrl := none, createdAt := 2 }],
    ratings := [] }

/-- C5 witness inputs: the message body being sent. -/
def bodyC5 : InsertMessage := { jobId := "j1", messageText := "Arrived" }

/-- Witness for C5: instantiated at `dbC5`, with the valid send
discharged concretely. -/
theorem C5_message_history_witness :
    (DatabaseStorage.getMessages dbC5 "j1").Pairwise
        (fun a b => a.createdAt ≤ b.createdAt) ∧
    (∀ m ∈ dbC5.messages, m.jobId = "j1" →
      ∃ e ∈ DatabaseStorage.getMessages dbC5 "j1",
        e.toMessage = m ∧
        e.sender = dbC5.users.find? (fun us => us.id = m.senderId)) ∧
    (insertMessageSchemaCheck bodyC5 = true →
      ∃ msg, (postMessageRoute dbC5 { id := "r1", role := "requester" }
          bodyC5 "m3" 9).2 = .ok msg ∧
        ∃ e ∈ DatabaseStorage.getMessages
            (postMessageRoute dbC5 { id := "r1", role := "requester" }
              bodyC5 "m3" 9).1 bodyC5.jobId,
          e.toMessage = msg) := by
  have h := C5_message_history dbC5 "j1" { id := "r1", role := "requester" }
    bodyC5 "m3" 9
  exact ⟨h.1, h.2.1, h.2.2⟩

/-! ## Claim C6 — relay persists before any forwarding decision -/

/-- Claim C6. For a schema-valid chat frame, the relay's handler always
leaves the store holding the new message row — the same resulting database
for every registry state and every socket readiness — so the message is
queryable through the history operation whether or not the counterpart had
a live connection; live delivery plays no part in durability. -/
theorem C6_relay_store_before_forward (db : DB)
    (clients : List (String × Nat)) (readyStateOpen : Nat → Bool)
    (userId : String) (payload : InsertMessage) (newId : String) (now : Nat)
    (hv : insertMessageSchemaCheck payload = true) :
    (wsMessageHandler db clients readyStateOpen userId payload newId now).1
      = { db with messages := db.messages ++
          [{ id := newId, jobId := payload.jobId, senderId := userId,
             messageText := payload.messageText,
             attachments := payload.attachments,
             voiceNoteUrl := payload.voiceNoteUrl, createdAt := now }] } ∧
    (∀ (clients' : List (String × Nat)) (ready' : Nat → Bool),
      (wsMessageHandler db clients' ready' userId payload newId now).1
        = (wsMessageHandler db clients readyStateOpen userId payload
            newId now).1) ∧
    ∃ e ∈ DatabaseStorage.getMessages
        (wsMessageHandler db clients readyStateOpen userId payload newId
          now).1 payload.jobId,
      e.toMessage
        = { id := newId, jobId := payload.jobId, senderId := userId,
            messageText := payload.messageText,
            attachments := payload.attachments,
            voiceNoteUrl := payload.voiceNoteUrl, createdAt := now } := by
  have hfst : ∀ (cs : List (String × Nat)) (rs : Nat → Bool),
      (wsMessageHandler db cs rs userId payload newId now).1
        = { db with messages := db.messages ++
            [{ id := newId, jobId := payload.jobId, senderId := userId,
               messageText := payload.messageText,
               attachments := payload.attachments,
               voiceNoteUrl := payload.voiceNoteUrl, createdAt := now }] } := by
    intro cs rs
    simp [wsMessageHandler, hv, DatabaseStorage.createMessage]
  refine ⟨hfst clients readyStateOpen, ?_, ?_⟩
  · intro clients' ready'
    rw [hfst clients' ready', hfst clients readyStateOpen]
  · rw [hfst clients readyStateOpen]
    refine ⟨_, mem_getMessages_of_row _ payload.jobId _ ?_ rfl, rfl⟩
    simp

/-- C6 witness inputs: an accepted job with no stored messages yet. -/
def dbC6 : DB :=
  { users := [{ id := "r1", role := "requester", name := "R", email := "r@x" },
              { id := "p1", role := "provider", name := "P1", email := "p1@x" }],
    providers := [],
    jobs := [{ id := "j1", requesterId := "r1", providerId := some "p1",
               categoryId := 1, title := "Fix sink", description := "leak",
               photos := [], latitude := "0", longitude := "0", address := none,
               urgency := "normal", preferredTime := none, status := "accepted",
               priceAgreed := none, pricePaid := none, createdAt := 0,
               updatedAt := 1 }],
    messages := [], ratings := [] }

/-- C6 witness inputs: the chat frame's payload. -/
def bodyC6 : InsertMessage := { jobId := "j1", messageText := "Offline ping" }

/-- Witness for C6: a frame sent on `dbC6`'s job while the registry is
empty (counterpart offline) still lands in the store. -/
theorem C6_relay_store_before_forward_witness :
    (wsMessageHandler dbC6 [] (fun _ => false) "p1" bodyC6 "m9" 12).1
      = { dbC6 with messages := dbC6.messages ++
          [{ id := "m9", jobId := "j1", senderId := "p1",
             messageText := "Offline ping", attachments := none,
             voiceNoteUrl := none, createdAt := 12 }] } :=
  (C6_relay_store_before_forward dbC6 [] (fun _ => false) "p1" bodyC6
    "m9" 12 (by decide)).1

/-! ## Claim C7 — connection registry soundness -/

/-- An `auth` step preserves registry soundness, provided the connection
is not switching to a different user id than one it already holds. -/
theorem regStep_auth_inv (s : RegistryState) (c : Nat) (uid : String)
    (hinv : RegInv s)
    (hpre : s.connUser c = none ∨ s.connUser c = some uid) :
    RegInv (regStep s (.auth c uid)) := by
  simp only [regStep]
  by_cases hcl : s.connClosed c = true
  · rw [if_pos hcl]; exact hinv
  · rw [if_neg hcl]
    intro u c' hget
    have hget' : clientsGet (clientsSet s.clients uid c) u = some c' := hget
    by_cases hu : u = uid
    · subst hu
      rw [clientsGet_set_self] at hget'
      injection hget' with hc'
      subst hc'
      refine ⟨by simpa using hcl, ?_⟩
      show Function.update s.connUser c (some u) c = some u
      exact Function.update_same c (some u) s.connUser
    · rw [clientsGet_set_ne _ _ _ _ hu] at hget'
      obtain ⟨h1, h2⟩ := hinv u c' hget'
      refine ⟨h1, ?_⟩
      show Function.update s.connUser c (some uid) c' = some u
      by_cases hc' : c' = c
      · subst hc'
        rcases hpre with hnone | hsome
        · rw [hnone] at h2; cases h2
        · rw [hsome] at h2
          injection h2 with he
          exact absurd he.symm hu
      · rw [Function.update_noteq hc']
        exact h2

/-- A `close` step preserves registry soundness. -/
theorem regStep_close_inv (s : RegistryState) (c : Nat)
    (hinv : RegInv s) : RegInv (regStep s (.close c)) := by
  by_cases hcl : s.connClosed c = true
  · have hstep : regStep s (.close c) = s := by
      simp only [regStep]; rw [if_pos hcl]
    rw [hstep]; exact hinv
  · rcases hcu : s.connUser c with _ | u₀
    · have hstep : regStep s (.close c)
          = { s with connClosed := Function.update s.connClosed c true } := by
        simp only [regStep]; rw [if_neg hcl, hcu]
      rw [hstep]
      intro u c' hget
      have hget' : clientsGet s.clients u = some c' := hget
      obtain ⟨h1, h2⟩ := hinv u c' hget'
      refine ⟨?_, h2⟩
      show Function.update s.connClosed c true c' = false
      by_cases hc' : c' = c
      · subst hc'; rw [hcu] at h2; cases h2
      · rw [Function.update_noteq hc']; exact h1
    · have hstep : regStep s (.close c)
          = { s with connClosed := Function.update s.connClosed c true,
                     clients := clientsDelete s.clients u₀ } := by
        simp only [regStep]; rw [if_neg hcl, hcu]
      rw [hstep]
      intro u c' hget
      have hget' : clientsGet (clientsDelete s.clients u₀) u = some c' := hget
      by_cases hu : u = u₀
      · subst hu
        rw [clientsGet_delete_self] at hget'
        cases hget'
      · rw [clientsGet_delete_ne _ _ _ hu] at hget'
        obtain ⟨h1, h2⟩ := hinv u c' hget'
        refine ⟨?_, h2⟩
        show Function.update s.connClosed c true c' = false
        by_cases hc' : c' = c
        · subst hc'
          rw [hcu] at h2
          injection h2 with he
          exact absurd he.symm hu
        · rw [Function.update_noteq hc']; exact h1

/-- Neither kind of step changes a connection's user id except the `auth`
step of that very connection. -/
theorem regStep_connUser_close (s : RegistryState) (c : Nat) :
    (regStep s (.close c)).connUser = s.connUser := by
  simp only [regStep]
  by_cases hcl : s.connClosed c = true
  · rw [if_pos hcl]
  · rw [if_neg hcl]

/-- Generalised induction for the registry soundness invariant: the
invariant survives a trace whose auth events agree with the state's
current assignments and never re-authenticate a connection under a
different id. -/
theorem regInv_run_aux (es : List RegEvent) :
    ∀ s : RegistryState, RegInv s →
      (∀ c u₁ u₂, s.connUser c = some u₁ → RegEvent.auth c u₂ ∈ es →
        u₁ = u₂) →
      SingleAuth es → RegInv (regRun s es) := by
  induction es with
  | nil => intro s hinv _ _; exact hinv
  | cons e rest ih =>
    intro s hinv hcompat hsa
    have hstep : regRun s (e :: rest) = regRun (regStep s e) rest := rfl
    rw [hstep]
    rcases e with ⟨c, uid⟩ | ⟨c⟩
    · refine ih (regStep s (.auth c uid)) ?_ ?_ ?_
      · apply regStep_auth_inv s c uid hinv
        rcases hcu : s.connUser c with _ | u₀
        · exact Or.inl rfl
        · have he : u₀ = uid := hcompat c u₀ uid hcu (List.mem_cons_self _ _)
          refine Or.inr ?_
          rw [← he]
      · intro c' u₁ u₂ hcu' hmem
        by_cases hcl : s.connClosed c = true
        · have hs : regStep s (.auth c uid) = s := by
            simp only [regStep]; rw [if_pos hcl]
          rw [hs] at hcu'
          exact hcompat c' u₁ u₂ hcu' (List.mem_cons_of_mem _ hmem)
        · have hs : (regStep s (.auth c uid)).connUser
              = Function.update s.connUser c (some uid) := by
            simp only [regStep]; rw [if_neg hcl]
          rw [hs] at hcu'
          by_cases hc' : c' = c
          · rw [hc', Function.update_same] at hcu'
            injection hcu' with he
            refine hsa c' u₁ u₂ ?_ (List.mem_cons_of_mem _ hmem)
            rw [hc', ← he]
            exact List.mem_cons_self _ _
          · rw [Function.update_noteq hc'] at hcu'
            exact hcompat c' u₁ u₂ hcu' (List.mem_cons_of_mem _ hmem)
      · intro c' u₁ u₂ h1 h2
        exact hsa c' u₁ u₂ (List.mem_cons_of_mem _ h1)
          (List.mem_cons_of_mem _ h2)
    · refine ih (regStep s (.close c)) (regStep_close_inv s c hinv) ?_ ?_
      · intro c' u₁ u₂ hcu' hmem
        rw [regStep_connUser_close] at hcu'
        exact hcompat c' u₁ u₂ hcu' (List.mem_cons_of_mem _ hmem)
      · intro c' u₁ u₂ h1 h2
        exact hsa c' u₁ u₂ (List.mem_cons_of_mem _ h1)
          (List.mem_cons_of_mem _ h2)

/-- Claim C7, counterexample. The claim says that after any sequence of
auth and close events, a user id's registry entry, if present, is that
user's one live connection. Concrete refutation: connection 0
authenticates as `u1`, re-authenticates as `u2`, then closes. The close
handler deletes only the entry for the *current* `userId` (`u2`), so the
registry still maps `u1` to connection 0 — which is closed. -/
theorem C7_counterexample :
    clientsGet (regRun regInit
        [.auth 0 "u1", .auth 0 "u2", .close 0]).clients "u1" = some 0 ∧
    (regRun regInit [.auth 0 "u1", .auth 0 "u2", .close 0]).connClosed 0
      = true := by
  exact ⟨rfl, rfl⟩

/-- Claim C7, amended. The registry maps each user id to at most one
connection; an auth frame for an already-registered user id replaces the
old entry, and closing a connection removes the entry for the
connection's *most recent* authenticated user id. Provided no connection
authenticates under two different user ids during the trace, it follows
that after any sequence of auth and close events a user id's registry
entry, if present, is an open connection currently authenticated as that
user. (A connection that re-authenticates under a different id leaves its
earlier entry stale — the counterexample above.) -/
theorem C7_amended_registry_inv (es : List RegEvent)
    (hsa : SingleAuth es) : RegInv (regRun regInit es) := by
  apply regInv_run_aux es regInit
  · intro u c hget
    cases hget
  · intro c u₁ u₂ hcu
    cases hcu
  · exact hsa

/-- Witness for C7 (amended): a replace-then-close trace on a single user
id satisfies `SingleAuth`, and the resulting registry is sound. -/
theorem C7_amended_registry_inv_witness :
    RegInv (regRun regInit [.auth 0 "u1", .auth 1 "u1", .close 0]) := by
  apply C7_amended_registry_inv
  intro c u₁ u₂ h1 h2
  have e1 : u₁ = "u1" := by
    simp only [List.mem_cons, List.not_mem_nil, or_false] at h1
    rcases h1 with h | h | h
    · injection h with hc hu
    · injection h with hc hu
    · exact RegEvent.noConfusion h
  have e2 : u₂ = "u1" := by
    simp only [List.mem_cons, List.not_mem_nil, or_false] at h2
    rcases h2 with h | h | h
    · injection h with hc hu
    · injection h with hc hu
    · exact RegEvent.noConfusion h
  rw [e1, e2]

/-! ## Claim C8 — jobs are created open and unassigned -/

/-- While every state a job passes through under status-mutating API calls
keeps it in `open`/`offered`, its `providerId` stays what it started as:
`null`. (`acceptJob` is the only operation that writes `providerId`, and
it simultaneously moves the status to `accepted`, which leaves the
`open`/`offered` set.) -/
theorem runJobOps_provider_none (ops : List JobOp) :
    ∀ (db : DB) (jid : String) (j0 : Job),
      DatabaseStorage.getJob db jid = some j0 → j0.providerId = none →
      (∀ n j, DatabaseStorage.getJob (runJobOps db jid (ops.take n)) jid
          = some j → j.status ∈ ["open", "offered"]) →
      ∀ j, DatabaseStorage.getJob (runJobOps db jid ops) jid = some j →
        j.providerId = none := by
  induction ops with
  | nil =>
    intro db jid j0 hj0 hp0 _ j hj
    rw [show runJobOps db jid [] = db from rfl] at hj
    rw [hj0] at hj
    injection hj with he
    rw [← he]
    exact hp0
  | cons op rest ih =>
    intro db jid j0 hj0 hp0 hoo j hj
    rw [show runJobOps db jid (op :: rest)
        = runJobOps (applyJobOp db jid op) jid rest from rfl] at hj
    have htake : ∀ n, runJobOps (applyJobOp db jid op) jid (rest.take n)
        = runJobOps db jid ((op :: rest).take (n + 1)) := by
      intro n
      rw [List.take_succ_cons]
      rfl
    rcases op with ⟨u, s, t⟩ | ⟨u, t⟩
    · by_cases hs : updateJobStatusSchemaCheck s = true
      · have h2 := patchJobRoute_found db u jid s t j0 hs hj0
        refine ih (applyJobOp db jid (.patch u s t)) jid
          { j0 with status := s, updatedAt := t } h2.2 hp0 ?_ j hj
        intro n j' hj'
        rw [htake n] at hj'
        exact hoo (n + 1) j' hj'
      · have hs' : updateJobStatusSchemaCheck s = false := by
          simpa using hs
        have hinv : applyJobOp db jid (.patch u s t) = db := by
          show (patchJobRoute db u jid s t).1 = db
          rw [patchJobRoute_invalid db u jid s t hs']
        rw [hinv] at hj
        refine ih db jid j0 hj0 hp0 ?_ j hj
        intro n j' hj'
        apply hoo (n + 1) j'
        rw [← htake n, hinv]
        exact hj'
    · by_cases hr : u.role = "provider"
      · exfalso
        have h2 := acceptJobRoute_provider_found db u jid t j0 hr hj0
        have h3 := hoo 1
          { j0 with providerId := some u.id, status := "accepted",
                    updatedAt := t } ?_
        · simp at h3
        · rw [show (JobOp.accept u t :: rest).take 1 = [JobOp.accept u t]
              from rfl]
          show DatabaseStorage.getJob
            (applyJobOp db jid (.accept u t)) jid = some _
          exact h2.2
      · have hinv : applyJobOp db jid (.accept u t) = db := by
          show (acceptJobRoute db u jid t).1 = db
          rw [acceptJobRoute_notProvider db u jid t hr]
        rw [hinv] at hj
        refine ih db jid j0 hj0 hp0 ?_ j hj
        intro n j' hj'
        apply hoo (n + 1) j'
        rw [← htake n, hinv]
        exact hj'

/-- Claim C8. First conjunct: every job the create route reports as
successfully created starts in status `open` with `providerId` null, for
*every* possible request payload — the payload type `InsertJob`, the image
of `insertJobSchema`, carries no `status` or `providerId` field, so the
caller cannot influence either column. Second conjunct: for as long as the
job remains in `open`/`offered` under the status-mutating API calls, its
`providerId` stays null. -/
theorem C8_job_open_invariant (db : DB) (jid : String) (ops : List JobOp)
    (j0 : Job) (hj0 : DatabaseStorage.getJob db jid = some j0)
    (hp0 : j0.providerId = none)
    (hoo : ∀ n j, DatabaseStorage.getJob (runJobOps db jid (ops.take n)) jid
        = some j → j.status ∈ ["open", "offered"]) :
    (∀ (d : DB) (u : AuthUser) (body : InsertJob) (nid : String) (t : Nat)
        (jret : Job), (postJobRoute d u body nid t).2 = .ok jret →
        jret.status = "open" ∧ jret.providerId = none) ∧
    (∀ j, DatabaseStorage.getJob (runJobOps db jid ops) jid = some j →
      j.providerId = none) := by
  constructor
  · intro d u body nid t jret hok
    by_cases hr : u.role = "requester"
    · by_cases hc : insertJobSchemaCheck body = true
      · have hok2 : (postJobRoute d u body nid t).2
            = .ok { id := nid, requesterId := u.id, providerId := none,
                    categoryId := body.categoryId, title := body.title,
                    description := body.description, photos := body.photos,
                    latitude := body.latitude, longitude := body.longitude,
                    address := body.address, urgency := body.urgency,
                    preferredTime := body.preferredTime, status := "open",
                    priceAgreed := none, pricePaid := none, createdAt := t,
                    updatedAt := t } := by
          simp [postJobRoute, hr, hc, DatabaseStorage.createJob]
        rw [hok2] at hok
        injection hok with he
        rw [← he]
        exact ⟨rfl, rfl⟩
      · have hbad : (postJobRoute d u body nid t).2
            = .err 400 "Validation failed" := by
          simp [postJobRoute, hr, hc]
        rw [hbad] at hok
        cases hok
    · have hbad : (postJobRoute d u body nid t).2
          = .err 403 "Only requesters can post jobs" := by
        simp [postJobRoute, hr]
      rw [hbad] at hok
      cases hok
  · exact runJobOps_provider_none ops db jid j0 hj0 hp0 hoo

/-- C8 witness inputs: a freshly created open job. -/
def jobC8 : Job :=
  { id := "j1", requesterId := "r1", providerId := none,
    categoryId := 1, title := "Fix sink", description := "kitchen leak",
    photos := [], latitude := "0", longitude := "0", address := none,
    urgency := "normal", preferredTime := none, status := "open",
    priceAgreed := none, pricePaid := none, createdAt := 0, updatedAt := 0 }

/-- C8 witness inputs: database holding `jobC8`. -/
def dbC8 : DB :=
  { users := [{ id := "r1", role := "requester", name := "R", email := "r@x" }],
    providers := [], jobs := [jobC8], messages := [], ratings := [] }

/-- C8 witness inputs: one status change that keeps the job inside
`open`/`offered`. -/
def opsC8 : List JobOp :=
  [.patch { id := "r1", role := "requester" } "offered" 5]

/-- Witness for C8: along `opsC8` the job stays in `open`/`offered`, and
its `providerId` is still null at the end. -/
theorem C8_job_open_invariant_witness :
    (∀ (d : DB) (u : AuthUser) (body : InsertJob) (nid : String) (t : Nat)
        (jret : Job), (postJobRoute d u body nid t).2 = .ok jret →
        jret.status = "open" ∧ jret.providerId = none) ∧
    (∀ j, DatabaseStorage.getJob (runJobOps dbC8 "j1" opsC8) "j1" = some j →
      j.providerId = none) := by
  apply C8_job_open_invariant dbC8 "j1" opsC8 jobC8 rfl rfl
  intro n j hj
  match n with
  | 0 =>
    rw [show DatabaseStorage.getJob (runJobOps dbC8 "j1" (opsC8.take 0))
        "j1" = some jobC8 from rfl] at hj
    injection hj with he
    rw [← he]
    decide
  | n + 1 =>
    rw [show opsC8.take (n + 1) = opsC8 from
      List.take_of_length_le (by simp [opsC8])] at hj
    rw [show DatabaseStorage.getJob (runJobOps dbC8 "j1" opsC8) "j1"
        = some { jobC8 with status := "offered", updatedAt := 5 }
        from rfl] at hj
    injection hj with he
    rw [← he]
    decide

/-! ## Claim C9 — provider search filtering -/

/-- C9 counterexample input: the one registered provider is online, serves
only category 2 and sits at latitude/longitude 50. -/
def provC9 : Provider :=
  { userId := "p1", serviceCategories := [2], isOnline := true,
    latitude := some 50, longitude := some 50 }

/-- C9 counterexample input: that provider's user row. -/
def userC9 : User := { id := "p1", role := "provider", name := "P1",
                       email := "p1@x" }

/-- C9 counterexample input: database with the single provider. -/
def dbC9 : DB :=
  { users := [userC9], providers := [provC9], jobs := [], messages := [],
    ratings := [] }

/-- C9 counterexample input: a query for category 1 near the origin with a
1 km radius. -/
def paramsC9 : SearchParams :=
  { categoryId := some 1, latitude := some 0, longitude := some 0,
    radius := some 1000 }

/-- Claim C9, counterexample. The claim says search results match the
requested category and radius. Querying `dbC9` for category 1 within 1 km
of the origin returns the category-2 provider sitting at (50, 50) — the
parameters are not applied. -/
theorem C9_counterexample :
    DatabaseStorage.searchProviders dbC9 paramsC9
        = [{ provider := provC9, user := some userC9 }] ∧
    paramsC9.categoryId = some 1 ∧
    1 ∉ provC9.serviceCategories := by
  exact ⟨rfl, rfl, by decide⟩

/-- Claim C9, amended. `searchProviders` accepts the category, latitude,
longitude and radius parameters but ignores them entirely: the result is
the same for every parameter choice, and it consists of exactly the
providers whose `isOnline` flag is set, each joined with their user row. -/
theorem C9_amended_search_ignores_params (db : DB) (p q : SearchParams) :
    DatabaseStorage.searchProviders db p
        = DatabaseStorage.searchProviders db q ∧
    (∀ r ∈ DatabaseStorage.searchProviders db p,
      r.provider.isOnline = true) ∧
    (∀ pr ∈ db.providers, pr.isOnline = true →
      { provider := pr,
        user := db.users.find? (fun us => us.id = pr.userId) :
          ProviderSearchResult } ∈ DatabaseStorage.searchProviders db p) := by
  refine ⟨rfl, ?_, ?_⟩
  · intro r hr
    unfold DatabaseStorage.searchProviders at hr
    rcases List.mem_map.mp hr with ⟨pr, hpr, hrfl⟩
    rw [← hrfl]
    exact (by simpa using (List.mem_filter.mp hpr).2 : pr.isOnline = true)
  · intro pr hpr hon
    unfold DatabaseStorage.searchProviders
    exact List.mem_map.mpr ⟨pr, List.mem_filter.mpr ⟨hpr, by simp [hon]⟩, rfl⟩

/-- Witness for C9 (amended): instantiated at `dbC9` with two different
parameter sets, including the fetch of the online provider. -/
theorem C9_amended_search_ignores_params_witness :
    DatabaseStorage.searchProviders dbC9 paramsC9
        = DatabaseStorage.searchProviders dbC9 {} ∧
    { provider := provC9,
      user := dbC9.users.find? (fun us => us.id = provC9.userId) :
        ProviderSearchResult } ∈ DatabaseStorage.searchProviders dbC9 paramsC9 := by
  have h := C9_amended_search_ignores_params dbC9 paramsC9 {}
  exact ⟨h.1, h.2.2 provC9 (by decide) rfl⟩

/-! ## Claim C10 — no participation check on the message endpoints -/

/-- Claim C10. The message endpoints check nothing about the caller's
relationship to the job: for an authenticated user who is neither the
job's requester nor its assigned provider, fetching the job's history
succeeds and returns the full history, and sending a (schema-valid)
message on the job succeeds, persisting it with the caller as sender. -/
theorem C10_no_participation_check (db : DB) (u : AuthUser) (j : Job)
    (hj : j ∈ db.jobs) (hreq : j.requesterId ≠ u.id)
    (hprov : j.providerId ≠ some u.id) (body : InsertMessage)
    (hb : body.jobId = j.id) (hv : insertMessageSchemaCheck body = true)
    (newId : String) (now : Nat) :
    getMessagesRoute db u j.id = .ok (DatabaseStorage.getMessages db j.id) ∧
    ∃ m, (postMessageRoute db u body newId now).2 = .ok m ∧
      m.senderId = u.id ∧
      (postMessageRoute db u body newId now).1.messages
        = db.messages ++ [m] := by
  refine ⟨rfl, ?_⟩
  refine ⟨{ id := newId, jobId := body.jobId, senderId := u.id,
            messageText := body.messageText,
            attachments := body.attachments,
            voiceNoteUrl := body.voiceNoteUrl,
            createdAt := now }, ?_, rfl, ?_⟩
  · simp [postMessageRoute, hv, DatabaseStorage.createMessage]
  · simp [postMessageRoute, hv, DatabaseStorage.createMessage]

/-- C10 witness inputs: a job between `r1` and `p1`. -/
def jobC10 : Job :=
  { id := "j1", requesterId := "r1", providerId := some "p1",
    categoryId := 1, title := "Fix sink", description := "leak",
    photos := [], latitude := "0", longitude := "0", address := none,
    urgency := "normal", preferredTime := none, status := "accepted",
    priceAgreed := none, pricePaid := none, createdAt := 0, updatedAt := 1 }

/-- C10 witness inputs: `jobC10`'s database, also holding the outsider
`x1`. -/
def dbC10 : DB :=
  { users := [{ id := "r1", role := "requester", name := "R", email := "r@x" },
              { id := "p1", role := "provider", name := "P1", email := "p1@x" },
              { id := "x1", role := "requester", name := "X", email := "x@x" }],
    providers := [],
    jobs := [jobC10],
    messages := [{ id := "m1", jobId := "j1", senderId := "r1",
                   messageText := "Hello", attachments := none,
                   voiceNoteUrl := none, createdAt := 2 }],
    ratings := [] }

/-- Witness for C10: the outsider `x1` — neither `jobC10`'s requester
`r1` nor its provider `p1` — reads the history and posts a message, both
succeeding. -/
theorem C10_no_participation_check_witness :
    getMessagesRoute dbC10 { id := "x1", role := "requester" } jobC10.id
        = .ok (DatabaseStorage.getMessages dbC10 jobC10.id) ∧
    ∃ m, (postMessageRoute dbC10 { id := "x1", role := "requester" }
          { jobId := "j1", messageText := "Intruding" } "m2" 9).2 = .ok m ∧
      m.senderId = "x1" ∧
      (postMessageRoute dbC10 { id := "x1", role := "requester" }
          { jobId := "j1", messageText := "Intruding" } "m2" 9).1.messages
        = dbC10.messages ++ [m] :=
  C10_no_participation_check dbC10 { id := "x1", role := "requester" }
    jobC10 (by decide) (by decide) (by decide)
    { jobId := "j1", messageText := "Intruding" } rfl (by decide) "m2" 9

end Sasa
